import Mathlib

/-!
Verification development for the PlayKit JavaScript SDK authentication core.

The definitions below are a shallow embedding of the TypeScript source:

* `AuthManager` (src/auth/AuthManager.ts): session state, token expiry
  predicates, `refreshToken`, `ensureValidToken`, `logout`, `exchangeJWT`,
  startup resolution (`initialize`), and the flow de-duplication slot used by
  `startAuthFlow` / `startDeviceAuthFlow`.
* `DeviceAuthFlowManager` (src/auth/DeviceAuthFlowManager.ts): the polling
  loop of `startFlow` / `pollForToken`, the backoff rule, the local deadline,
  and `cancel`.
* `TokenStorage` (src/auth/TokenStorage.ts): `loadAuthState` with its
  decrypt-fallback behaviour.
* `CryptoUtils` (src/utils/CryptoUtils.ts): `base64Encode` / `base64Decode`
  (a model of the host btoa/atob builtins) and `base64URLEncode` /
  `base64URLDecode` (translated from the source).

Timestamps are milliseconds as `Nat`.  Remote I/O is modelled by passing each
operation the response the network would deliver (`FetchResult`).  JavaScript
truthiness tests on optional numbers and strings are modelled explicitly by
`natTruthy` / `strTruthy` (0 and the empty string are falsy).  Error objects
carry the machine readable code and HTTP status; human readable messages are
elided.
-/

namespace PlayKit

/-- JavaScript truthiness of an optional string: `undefined`/`null` and the
empty string are falsy. -/
def strTruthy : Option String → Bool
  | none => false
  | some s => s ≠ ""

/-- JavaScript truthiness of an optional number: `undefined`/`null` and 0 are
falsy. -/
def natTruthy : Option Nat → Bool
  | none => false
  | some n => n ≠ 0

/-- JavaScript `a || b` on optional strings: returns the first truthy value,
`none` if neither is truthy. -/
def jsOrStr (a b : Option String) : Option String :=
  if strTruthy a then a else if strTruthy b then b else none

/-- JavaScript `n || d` for an optional number with a numeric default. -/
def jsOrNat (a : Option Nat) (d : Nat) : Nat :=
  match a with
  | some n => if n = 0 then d else n
  | none => d

/-- Token kind recorded in the session (`tokenType` in the source). -/
inductive TokenKind where
  | developer
  | player
deriving DecidableEq, Repr

/-- The `AuthState` record owned by `AuthManager` (src/types): the in-memory
session. -/
structure AuthState where
  isAuthenticated : Bool
  token : Option String := none
  tokenType : Option TokenKind := none
  expiresAt : Option Nat := none
  refreshToken : Option String := none
  refreshExpiresAt : Option Nat := none
deriving DecidableEq, Repr

/-- `PlayKitError` (src/types/common.ts) restricted to its machine readable
fields: `code` and `statusCode`.  The message string is elided. -/
structure PKError where
  code : Option String := none
  statusCode : Option Nat := none
deriving DecidableEq, Repr

/-- Body of a successful `/api/auth/refresh` response. -/
structure RefreshData where
  access_token : String
  token_type : String
  expires_in : Nat
  refresh_token : String
  refresh_expires_in : Nat
  scope : String
deriving DecidableEq, Repr

/-- Outcome of one `fetch` call, as observed by the SDK: a parsed 2xx body, a
non-2xx status with the (optional) error code of the JSON body, or a network
error (the promise rejects). -/
inductive FetchResult (α : Type) where
  | success (data : α)
  | httpError (status : Nat) (errCode : Option String)
  | networkError
deriving DecidableEq, Repr

instance {ε α : Type} [DecidableEq ε] [DecidableEq α] : DecidableEq (Except ε α) :=
  fun x y =>
    match x, y with
    | .ok a, .ok b => decidable_of_iff (a = b) (by simp)
    | .ok _, .error _ => isFalse (by simp)
    | .error _, .ok _ => isFalse (by simp)
    | .error a, .error b => decidable_of_iff (a = b) (by simp)

/-- Result record of one `AuthManager` operation: the new in-memory session,
the Credential Store record for the game id (`none` = no record), the value
returned or the error thrown, and whether a network request was issued. -/
structure Step (α : Type) where
  state : AuthState
  stored : Option AuthState
  result : Except PKError α
  requested : Bool
deriving Repr, DecidableEq

/-- The `TokenRefreshResult` returned by `AuthManager.refreshToken`. -/
structure TokenRefreshResult where
  accessToken : String
  tokenType : String
  expiresIn : Nat
  refreshToken : String
  refreshExpiresIn : Nat
  scope : String
deriving DecidableEq, Repr

namespace AuthManager

/-- `AuthManager.logout`: resets the session to unauthenticated.  The paired
storage effect (`clearAuthState`) removes the stored record. -/
def logoutState : AuthState :=
  { isAuthenticated := false }

/-- `AuthManager.isTokenExpired`: false when no expiry is tracked (including
the falsy timestamp 0), otherwise `now >= expiresAt`. -/
def isTokenExpired (s : AuthState) (now : Nat) : Bool :=
  if natTruthy s.expiresAt then decide (now ≥ s.expiresAt.getD 0) else false

/-- `AuthManager.isTokenExpiringSoon`: false when no expiry is tracked,
otherwise `now >= expiresAt - thresholdMs` (JavaScript subtraction, so the
comparison is over integers). -/
def isTokenExpiringSoon (s : AuthState) (now thresholdMs : Nat) : Bool :=
  if natTruthy s.expiresAt then
    decide ((now : Int) ≥ (s.expiresAt.getD 0 : Int) - (thresholdMs : Int))
  else false

/-- `AuthManager.canRefresh`: a truthy refresh token must exist; with no
recorded refresh expiry it is assumed valid, otherwise it must not be past. -/
def canRefresh (s : AuthState) (now : Nat) : Bool :=
  if ¬ strTruthy s.refreshToken then false
  else if ¬ natTruthy s.refreshExpiresAt then true
  else decide (now < s.refreshExpiresAt.getD 0)

/-- `AuthManager.refreshToken`.  Precondition failures (missing or expired
refresh token) throw without any network call.  A 401 response clears the
session and the stored record (via `logout`) and throws
`REFRESH_TOKEN_INVALID`; any other non-2xx throws without touching state; a
network error throws `REFRESH_NETWORK_ERROR` without touching state.  On
success the session is replaced with the new token set and persisted. -/
def refreshToken (s : AuthState) (stored : Option AuthState) (now : Nat)
    (resp : FetchResult RefreshData) : Step TokenRefreshResult :=
  if ¬ strTruthy s.refreshToken then
    ⟨s, stored, .error ⟨some "NO_REFRESH_TOKEN", none⟩, false⟩
  else if natTruthy s.refreshExpiresAt && decide (now ≥ s.refreshExpiresAt.getD 0) then
    ⟨s, stored, .error ⟨some "REFRESH_TOKEN_EXPIRED", none⟩, false⟩
  else
    match resp with
    | .success d =>
      let s' : AuthState :=
        { isAuthenticated := true
          token := some d.access_token
          tokenType := some (if d.scope = "developer:full" then .developer else .player)
          expiresAt := some (now + d.expires_in * 1000)
          refreshToken := some d.refresh_token
          refreshExpiresAt := some (now + d.refresh_expires_in * 1000) }
      ⟨s', some s', .ok ⟨d.access_token, d.token_type, d.expires_in,
        d.refresh_token, d.refresh_expires_in, d.scope⟩, true⟩
    | .httpError status errCode =>
      if status = 401 then
        ⟨logoutState, none, .error ⟨some "REFRESH_TOKEN_INVALID", some status⟩, true⟩
      else
        ⟨s, stored, .error ⟨some (errCode.getD "REFRESH_FAILED"), some status⟩, true⟩
    | .networkError =>
      ⟨s, stored, .error ⟨some "REFRESH_NETWORK_ERROR", none⟩, true⟩

/-- `AuthManager.ensureValidToken`.  Returns immediately in server mode, when
not authenticated, or when the token is not within `thresholdMs` of expiry.
Otherwise, when refreshable, it refreshes; a failed refresh is rethrown only
when the (post-refresh-attempt) session is actually expired.  When not
refreshable and the token is expired it throws `TOKEN_EXPIRED`. -/
def ensureValidToken (serverMode : Bool) (s : AuthState) (stored : Option AuthState)
    (now thresholdMs : Nat) (resp : FetchResult RefreshData) : Step Unit :=
  if serverMode then ⟨s, stored, .ok (), false⟩
  else if !s.isAuthenticated || !strTruthy s.token then ⟨s, stored, .ok (), false⟩
  else if ¬ isTokenExpiringSoon s now thresholdMs then ⟨s, stored, .ok (), false⟩
  else if canRefresh s now then
    let r := refreshToken s stored now resp
    match r.result with
    | .ok _ => ⟨r.state, r.stored, .ok (), r.requested⟩
    | .error e =>
      if isTokenExpired r.state now then ⟨r.state, r.stored, .error e, r.requested⟩
      else ⟨r.state, r.stored, .ok (), r.requested⟩
  else if isTokenExpired s now then
    ⟨s, stored, .error ⟨some "TOKEN_EXPIRED", none⟩, false⟩
  else ⟨s, stored, .ok (), false⟩

/-- The default `thresholdMs` of `ensureValidToken` and `isTokenExpiringSoon`
(5 minutes). -/
def defaultRefreshThresholdMs : Nat := 5 * 60 * 1000

end AuthManager

/-- Body of a successful `/api/external/exchange-jwt` response. -/
structure JwtExchangeData where
  playerToken : Option String := none
  token : Option String := none
  expiresIn : Option Nat := none
deriving DecidableEq, Repr

/-- The `DeviceAuthResult` the flow driver resolves with. -/
structure DeviceAuthResult where
  access_token : String
  token_type : String
  expires_in : Nat
  refresh_token : String
  refresh_expires_in : Nat
  scope : String
deriving DecidableEq, Repr

namespace AuthManager

/-- `AuthManager.exchangeJWT`: a failing response or network error throws with
state untouched; on success the player token is `data.playerToken || data.token`
(throwing when neither is truthy), the lifetime defaults to 86400 seconds, and
the new session is persisted. -/
def exchangeJWT (s : AuthState) (stored : Option AuthState) (now : Nat)
    (resp : FetchResult JwtExchangeData) : Step String :=
  match resp with
  | .networkError => ⟨s, stored, .error ⟨none, none⟩, true⟩
  | .httpError status errCode => ⟨s, stored, .error ⟨errCode, some status⟩, true⟩
  | .success d =>
    match jsOrStr d.playerToken d.token with
    | none => ⟨s, stored, .error ⟨none, none⟩, true⟩
    | some pt =>
      let expiresIn := jsOrNat d.expiresIn 86400
      let s' : AuthState :=
        { isAuthenticated := true
          token := some pt
          tokenType := some .player
          expiresAt := some (now + expiresIn * 1000) }
      ⟨s', some s', .ok pt, true⟩

/-- Session update applied by `AuthManager.executeDeviceAuthFlow` and
`AuthManager.pollDeviceAuth` on a successful device flow: the token kind is
`developer` exactly for scope `developer:full`. -/
def applyDeviceAuthResult (r : DeviceAuthResult) (now : Nat) : AuthState :=
  { isAuthenticated := true
    token := some r.access_token
    tokenType := some (if r.scope = "developer:full" then .developer else .player)
    expiresAt := some (now + r.expires_in * 1000)
    refreshToken := some r.refresh_token
    refreshExpiresAt := some (now + r.refresh_expires_in * 1000) }

/-- Session update applied by `AuthManager.executeAuthFlow` (the device branch
run from `initialize`), which always records the token kind `player`. -/
def applyDeviceAuthResultPlayer (r : DeviceAuthResult) (now : Nat) : AuthState :=
  { isAuthenticated := true
    token := some r.access_token
    tokenType := some .player
    expiresAt := some (now + r.expires_in * 1000)
    refreshToken := some r.refresh_token
    refreshExpiresAt := some (now + r.refresh_expires_in * 1000) }

/-- Static configuration consulted by `AuthManager.initialize`. -/
structure InitConfig where
  developerToken : Option String := none
  playerToken : Option String := none
  playerJWT : Option String := none
  serverMode : Bool := false
  authMethodHeadless : Bool := false
  autoDetectPlatformToken : Bool := true
  hasWindow : Bool := true
deriving DecidableEq, Repr

/-- Environment observed during one `initialize` run: the Credential Store
record, the platform token probe, and the responses of the network operations
the run may perform. -/
structure InitEnv where
  storedState : Option AuthState := none
  platformToken : Option String := none
  refreshResp : FetchResult RefreshData := .networkError
  jwtResp : FetchResult JwtExchangeData := .networkError
  headlessFlowToken : Except PKError String := .error ⟨some "CANCELLED", none⟩
  deviceResult : Except PKError DeviceAuthResult := .error ⟨some "CANCELLED", none⟩
  now : Nat := 0
deriving Repr

/-- Tail of `AuthManager.initialize`: the unauthenticated fallback.  Server
mode throws `NOT_AUTHENTICATED`; with a window the auth flow runs (device by
default, the deprecated headless branch ends in a JWT exchange); without a
window it throws `NOT_AUTHENTICATED`. -/
def initAuthFinal (cfg : InitConfig) (env : InitEnv) (s : AuthState)
    (stored : Option AuthState) : Step Unit :=
  if cfg.serverMode then ⟨s, stored, .error ⟨some "NOT_AUTHENTICATED", none⟩, false⟩
  else if cfg.hasWindow then
    if cfg.authMethodHeadless then
      match env.headlessFlowToken with
      | .error e => ⟨s, stored, .error e, true⟩
      | .ok _ =>
        let r := exchangeJWT s stored env.now env.jwtResp
        ⟨r.state, r.stored, r.result.map (fun _ => ()), true⟩
    else
      match env.deviceResult with
      | .error e => ⟨s, stored, .error e, true⟩
      | .ok d =>
        let s' := applyDeviceAuthResultPlayer d env.now
        ⟨s', some s', .ok (), true⟩
  else ⟨s, stored, .error ⟨some "NOT_AUTHENTICATED", none⟩, false⟩

/-- Middle of `AuthManager.initialize`: the `playerJWT` exchange and the
platform-injected token probe, falling through to `initAuthFinal`. -/
def initAuthAfterSaved (cfg : InitConfig) (env : InitEnv) (s : AuthState)
    (stored : Option AuthState) : Step Unit :=
  if strTruthy cfg.playerJWT then
    let r := exchangeJWT s stored env.now env.jwtResp
    ⟨r.state, r.stored, r.result.map (fun _ => ()), true⟩
  else if cfg.autoDetectPlatformToken && cfg.hasWindow then
    match if strTruthy env.platformToken then env.platformToken else none with
    | some t =>
      ⟨{ isAuthenticated := true, token := some t, tokenType := some .player },
        stored, .ok (), false⟩
    | none => initAuthFinal cfg env s stored
  else initAuthFinal cfg env s stored

/-- `AuthManager.initialize`: startup credential resolution.  In order:
static developer token, static player token, a stored session (used as-is if
its token is unexpired, refreshed when possible, with refresh failure falling
through), a one-shot player JWT, a platform-injected token, and finally the
unauthenticated fallback of `initAuthFinal`.  `s0` is the session at entry
(the constructor produces `logoutState`) and `stored0` the stored record. -/
def initAuth (cfg : InitConfig) (env : InitEnv) (s0 : AuthState)
    (stored0 : Option AuthState) : Step Unit :=
  if strTruthy cfg.developerToken then
    ⟨{ isAuthenticated := true, token := cfg.developerToken,
       tokenType := some .developer }, stored0, .ok (), false⟩
  else if strTruthy cfg.playerToken then
    ⟨{ isAuthenticated := true, token := cfg.playerToken,
       tokenType := some .player }, stored0, .ok (), false⟩
  else
    match env.storedState with
    | some saved =>
      if strTruthy saved.token then
        if natTruthy saved.expiresAt && decide (env.now < saved.expiresAt.getD 0) then
          ⟨saved, stored0, .ok (), false⟩
        else if !cfg.serverMode && strTruthy saved.refreshToken &&
            (!natTruthy saved.refreshExpiresAt ||
              decide (env.now < saved.refreshExpiresAt.getD 0)) then
          let r := refreshToken saved stored0 env.now env.refreshResp
          match r.result with
          | .ok _ => ⟨r.state, r.stored, .ok (), true⟩
          | .error _ => initAuthAfterSaved cfg env r.state r.stored
        else initAuthAfterSaved cfg env s0 stored0
      else initAuthAfterSaved cfg env s0 stored0
    | none => initAuthAfterSaved cfg env s0 stored0

/-- State of the shared-promise de-duplication slot used by both
`AuthManager.startAuthFlow` (`currentAuthFlowPromise`) and
`AuthManager.startDeviceAuthFlow` (`currentDeviceAuthFlowPromise`).  Promises
are identified by a fresh `Nat`; `initiates` counts how many flows (and hence
initiate requests) were started. -/
structure DedupState where
  slot : Option Nat := none
  nextId : Nat := 0
  initiates : Nat := 0
deriving DecidableEq, Repr

/-- Events interleaved on the single-threaded event loop: a caller invoking
the flow entry point, or the in-progress flow settling (the `finally` block
that clears the slot). -/
inductive DedupEvent where
  | call
  | settle
deriving DecidableEq, Repr

/-- One step of the de-duplication protocol: a call while the slot is
populated returns the shared promise and starts nothing; a call on an empty
slot creates a fresh flow promise (issuing one initiate request) and stores
it; settling clears the slot.  The second component is the promise the caller
receives. -/
def dedupStep (st : DedupState) : DedupEvent → DedupState × Option Nat
  | .call =>
    match st.slot with
    | some p => (st, some p)
    | none =>
      (⟨some st.nextId, st.nextId + 1, st.initiates + 1⟩, some st.nextId)
  | .settle => ({ st with slot := none }, none)

/-- Run a sequence of events, collecting the promise each `call` received. -/
def dedupRun (st : DedupState) : List DedupEvent → DedupState × List Nat
  | [] => (st, [])
  | e :: es =>
    let (st', p) := dedupStep st e
    let (st'', ps) := dedupRun st' es
    (st'', match p with | some q => q :: ps | none => ps)

end AuthManager

namespace DeviceAuthFlowManager

/-- One server answer to a `/api/device-auth/poll` request, or a network
error.  `pending` may carry a new suggested poll interval in seconds. -/
inductive PollResponse where
  | pending (pollIntervalSec : Option Nat)
  | authorized (d : DeviceAuthResult)
  | errSlowDown
  | errAccessDenied
  | errExpiredToken (d : Option String)
  | errOther (errCode : Option String) (status : Nat)
  | netError
deriving DecidableEq, Repr

/-- How the flow promise settles. -/
inductive PollOutcome where
  | resolved (d : DeviceAuthResult)
  | rejected (code : String)
deriving DecidableEq, Repr

/-- Mutable state of the polling loop: the `aborted` flag, the current poll
interval in milliseconds (initially 5000), and whether a retry timer
(`pollTimeoutId`) is pending. -/
structure PollState where
  aborted : Bool := false
  interval : Nat := 5000
  timeoutPending : Bool := false
deriving DecidableEq, Repr

/-- `DeviceAuthFlowManager.cancel`: sets the aborted flag and clears any
pending retry timer (the modal teardown and event emission are not
modelled). -/
def cancel (st : PollState) : PollState :=
  { st with aborted := true, timeoutPending := false }

/-- Result of one iteration of the `poll` closure: the updated loop state, an
outcome when the promise settles this iteration, and whether a poll network
request was issued. -/
structure PollStepResult where
  state : PollState
  outcome : Option PollOutcome
  requested : Bool
deriving DecidableEq, Repr

/-- One iteration of the polling loop shared by
`DeviceAuthFlowManager.startFlow` and `DeviceAuthFlowManager.pollForToken`.
Order of checks, as in the source: the aborted flag first (reject
`CANCELLED`), then the local deadline (reject `EXPIRED`), both before any
network request; then the response dispatch.  `slow_down` doubles the
interval, capped at 30000 ms, and schedules a retry; `pending` adopts a
truthy server-provided interval and schedules a retry; a network error
schedules a retry at the current interval. -/
def pollStep (st : PollState) (now deadline : Nat) (resp : PollResponse) :
    PollStepResult :=
  if st.aborted then ⟨st, some (.rejected "CANCELLED"), false⟩
  else if now ≥ deadline then ⟨st, some (.rejected "EXPIRED"), false⟩
  else
    match resp with
    | .pending i =>
      let st' := if natTruthy i then { st with interval := i.getD 0 * 1000 } else st
      ⟨{ st' with timeoutPending := true }, none, true⟩
    | .authorized d => ⟨st, some (.resolved d), true⟩
    | .errSlowDown =>
      ⟨{ st with interval := min (st.interval * 2) 30000, timeoutPending := true },
        none, true⟩
    | .errAccessDenied => ⟨st, some (.rejected "ACCESS_DENIED"), true⟩
    | .errExpiredToken _ => ⟨st, some (.rejected "EXPIRED"), true⟩
    | .errOther _ _ => ⟨st, some (.rejected "POLL_FAILED"), true⟩
    | .netError => ⟨{ st with timeoutPending := true }, none, true⟩

/-- Run the polling loop over a trace of (current time, response) pairs.  The
loop stops as soon as the promise settles, so at most one outcome is ever
produced; the final component counts the poll network requests issued. -/
def runPoll (st : PollState) (deadline : Nat) :
    List (Nat × PollResponse) → PollState × Option PollOutcome × Nat
  | [] => (st, none, 0)
  | (now, r) :: rest =>
    let s := pollStep st now deadline r
    match s.outcome with
    | some o => (s.state, some o, if s.requested then 1 else 0)
    | none =>
      let (st', o, k) := runPoll s.state deadline rest
      (st', o, (if s.requested then 1 else 0) + k)

/-- The local deadline computed by `startFlow`:
`Date.now() + (expires_in || 600) * 1000`. -/
def flowDeadline (initTime : Nat) (expiresIn : Option Nat) : Nat :=
  initTime + jsOrNat expiresIn 600 * 1000

/-- Loop state after `n` consecutive `slow_down` responses, each taken at a
time strictly before the deadline (time 0 against deadline 1). -/
def slowDownTrace (st : PollState) : Nat → PollState
  | 0 => st
  | n + 1 => (pollStep (slowDownTrace st n) 0 1 .errSlowDown).state

/-- An event the host scheduler delivers to an in-progress flow: the pending
retry timer fires, running one poll iteration against the response the server
would deliver, or an external `cancel()` call arrives. -/
inductive FlowEvent where
  | timerFire (now : Nat) (resp : PollResponse)
  | cancelEv
deriving DecidableEq, Repr

/-- One scheduler step.  A poll iteration only runs when a retry timer is
actually pending (the `setTimeout` installed by the previous iteration);
firing consumes the timer before the iteration starts.  `cancel()` flips the
aborted flag and clears the pending timer, so a later `timerFire` finds no
timer and runs nothing: the cleared callback never executes.  Returns the new
state, the outcome this step settles the flow promise with (if any), and
whether a poll network request was issued. -/
def flowStep (st : PollState) (deadline : Nat) :
    FlowEvent → PollState × Option PollOutcome × Bool
  | .timerFire now resp =>
    if st.timeoutPending then
      let s := pollStep { st with timeoutPending := false } now deadline resp
      (s.state, s.outcome, s.requested)
    else (st, none, false)
  | .cancelEv => (cancel st, none, false)

/-- Run a sequence of scheduler events, collecting every outcome the flow
promise is settled with and counting the poll requests issued. -/
def runFlow (st : PollState) (deadline : Nat) :
    List FlowEvent → PollState × List PollOutcome × Nat
  | [] => (st, [], 0)
  | e :: es =>
    let s := flowStep st deadline e
    let r := runFlow s.1 deadline es
    (r.1, (match s.2.1 with | some o => o :: r.2.1 | none => r.2.1),
      (if s.2.2 then 1 else 0) + r.2.2)

end DeviceAuthFlowManager

namespace TokenStorage

/-- `TokenStorage.decrypt`.  With no encryption key (or no Web Crypto) the
stored string is returned as-is.  Otherwise the host decryption primitive is
consulted (`decryptRaw`, returning `none` when `crypto.subtle.decrypt`
throws, e.g. on a corrupted AES-GCM ciphertext); on failure the ORIGINAL
stored string is returned, never an exception. -/
def decrypt (hasKey : Bool) (decryptRaw : String → Option String)
    (encryptedData : String) : String :=
  if hasKey then
    match decryptRaw encryptedData with
    | some plain => plain
    | none => encryptedData
  else encryptedData

/-- `TokenStorage.loadAuthState` for one game id.  `record` is what the
backing store holds under the namespaced key; `parseJson` models the host
`JSON.parse` (`none` when it throws).  An absent or falsy record yields
`none`; otherwise the record is decrypted (with fallback) and parsed, any
parse failure being caught and turned into `none`. -/
def loadAuthState {α : Type} (hasKey : Bool) (decryptRaw : String → Option String)
    (parseJson : String → Option α) (record : Option String) : Option α :=
  match record with
  | none => none
  | some enc =>
    if enc = "" then none
    else
      match parseJson (decrypt hasKey decryptRaw enc) with
      | some v => some v
      | none => none

end TokenStorage

namespace CryptoUtils

/-- The standard base64 alphabet used by the host `btoa` / `Buffer`
builtins. -/
def b64Alphabet : List Char :=
  "ABCDEFGHIJKLMNOPQRSTUVWXYZabcdefghijklmnopqrstuvwxyz0123456789+/".toList

/-- Character for a 6-bit group. -/
def sextetChar (n : Nat) : Char :=
  b64Alphabet.getD n 'A'

/-- Index of a base64 character in the alphabet (0 for characters outside
it). -/
def charSextet (c : Char) : Nat :=
  (b64Alphabet.indexOf c) % 64

/-- `base64Encode` (CryptoUtils): a model of the host `btoa` / `Buffer`
base64 encoder over a byte list, producing the padded standard encoding. -/
def base64Encode : List Nat → List Char
  | [] => []
  | [a] =>
    [sextetChar (a / 4), sextetChar (a % 4 * 16), '=', '=']
  | [a, b] =>
    [sextetChar (a / 4), sextetChar (a % 4 * 16 + b / 16),
     sextetChar (b % 16 * 4), '=']
  | a :: b :: c :: rest =>
    sextetChar (a / 4) :: sextetChar (a % 4 * 16 + b / 16) ::
      sextetChar (b % 16 * 4 + c / 64) :: sextetChar (c % 64) ::
      base64Encode rest

/-- `base64Decode` (CryptoUtils): a model of the host `atob` / `Buffer`
base64 decoder on well-formed padded input (groups of four characters). -/
def base64Decode : List Char → List Nat
  | c1 :: c2 :: c3 :: c4 :: rest =>
    if c3 = '=' then
      [charSextet c1 * 4 + charSextet c2 / 16]
    else if c4 = '=' then
      [charSextet c1 * 4 + charSextet c2 / 16,
       charSextet c2 % 16 * 16 + charSextet c3 / 4]
    else
      (charSextet c1 * 4 + charSextet c2 / 16) ::
        (charSextet c2 % 16 * 16 + charSextet c3 / 4) ::
        (charSextet c3 % 4 * 64 + charSextet c4) ::
        base64Decode rest
  | _ => []

/-- The character substitution of `base64URLEncode`: `+` to `-` and `/` to
`_`. -/
def urlSafeChar (c : Char) : Char :=
  if c = '+' then '-' else if c = '/' then '_' else c

/-- The inverse substitution performed by `base64URLDecode`: `-` to `+` and
`_` to `/`. -/
def unUrlChar (c : Char) : Char :=
  if c = '-' then '+' else if c = '_' then '/' else c

/-- `base64URLEncode` (CryptoUtils): standard base64, then
`replace(+,-)`, `replace(/,_)`, `replace(=,)` as in the source. -/
def base64URLEncode (data : List Nat) : List Char :=
  ((base64Encode data).map urlSafeChar).filter (fun c => c ≠ '=')

/-- The padding re-added by `base64URLDecode`:
`'='.repeat(4 - length % 4)` when the length is not a multiple of four. -/
def rePad (l : List Char) : List Char :=
  if l.length % 4 = 0 then [] else List.replicate (4 - l.length % 4) '='

/-- `base64URLDecode` (CryptoUtils): restore the standard alphabet, re-add
padding, then decode. -/
def base64URLDecode (s : List Char) : List Nat :=
  let restored := s.map unUrlChar
  base64Decode (restored ++ rePad restored)

end CryptoUtils

/-- The session invariant of the data model: an authenticated session carries
a present, non-empty access token. -/
def tokenInvariant (s : AuthState) : Prop :=
  s.isAuthenticated = true → strTruthy s.token = true

instance (s : AuthState) : Decidable (tokenInvariant s) := by
  unfold tokenInvariant
  infer_instance

/-- Well-formedness of a refresh response: a successful body carries a
non-empty access token. -/
def refreshRespWF : FetchResult RefreshData → Prop
  | .success d => d.access_token ≠ ""
  | _ => True

instance : (r : FetchResult RefreshData) → Decidable (refreshRespWF r)
  | .success d => inferInstanceAs (Decidable (d.access_token ≠ ""))
  | .httpError _ _ => inferInstanceAs (Decidable True)
  | .networkError => inferInstanceAs (Decidable True)

/-- Well-formedness of a device-flow outcome: a successful result carries a
non-empty access token. -/
def deviceResultWF : Except PKError DeviceAuthResult → Prop
  | .ok d => d.access_token ≠ ""
  | _ => True

instance : (r : Except PKError DeviceAuthResult) → Decidable (deviceResultWF r)
  | .ok d => inferInstanceAs (Decidable (d.access_token ≠ ""))
  | .error _ => inferInstanceAs (Decidable True)

/-! ## Claim theorems -/

/-- C1: a `refreshToken` call whose refresh request draws an HTTP 401 clears
the whole session (the state becomes `logoutState`, whose `isAuthenticated`
is false, and the stored record for the game id is removed) and throws
`REFRESH_TOKEN_INVALID`; every other failing response (any non-401 HTTP
error) and every network error throws while leaving the in-memory session and
the stored record unchanged.  The 401 hypotheses record that the endpoint was
actually consulted (a truthy, unexpired refresh token). -/
theorem claim_C1_refresh_401_clears_session (s : AuthState)
    (stored : Option AuthState) (now : Nat) :
    AuthManager.logoutState.isAuthenticated = false ∧
    (∀ ec, strTruthy s.refreshToken = true →
      (natTruthy s.refreshExpiresAt = true → now < s.refreshExpiresAt.getD 0) →
      AuthManager.refreshToken s stored now (.httpError 401 ec) =
        ⟨AuthManager.logoutState, none,
          .error ⟨some "REFRESH_TOKEN_INVALID", some 401⟩, true⟩) ∧
    (∀ status ec, status ≠ 401 →
      (AuthManager.refreshToken s stored now (.httpError status ec)).state = s ∧
      (AuthManager.refreshToken s stored now (.httpError status ec)).stored = stored ∧
      ∃ e, (AuthManager.refreshToken s stored now (.httpError status ec)).result =
        .error e) ∧
    ((AuthManager.refreshToken s stored now .networkError).state = s ∧
      (AuthManager.refreshToken s stored now .networkError).stored = stored ∧
      ∃ e, (AuthManager.refreshToken s stored now .networkError).result = .error e) := by
  refine ⟨rfl, ?_, ?_, ?_⟩
  · intro ec h1 h2
    have hcond : (natTruthy s.refreshExpiresAt &&
        decide (now ≥ s.refreshExpiresAt.getD 0)) = false := by
      cases hn : natTruthy s.refreshExpiresAt with
      | false => simp
      | true =>
        have := h2 hn
        simp only [Bool.true_and, decide_eq_false_iff_not]
        omega
    simp [AuthManager.refreshToken, h1, hcond]
  · intro status ec hne
    unfold AuthManager.refreshToken
    split
    · exact ⟨rfl, rfl, _, rfl⟩
    · split
      · exact ⟨rfl, rfl, _, rfl⟩
      · simp only
        rw [if_neg hne]
        exact ⟨rfl, rfl, _, rfl⟩
  · unfold AuthManager.refreshToken
    split
    · exact ⟨rfl, rfl, _, rfl⟩
    · split
      · exact ⟨rfl, rfl, _, rfl⟩
      · exact ⟨rfl, rfl, _, rfl⟩

/-- Witness for C1 at a concrete authenticated, refreshable session. -/
theorem claim_C1_refresh_401_clears_session_witness :
    strTruthy (AuthState.mk true (some "tok") (some .player) (some 1)
      (some "r") none).refreshToken = true ∧
    AuthManager.refreshToken (AuthState.mk true (some "tok") (some .player)
        (some 1) (some "r") none) none 5 (.httpError 401 none) =
      ⟨AuthManager.logoutState, none,
        .error ⟨some "REFRESH_TOKEN_INVALID", some 401⟩, true⟩ :=
  ⟨by decide,
    (claim_C1_refresh_401_clears_session
      (AuthState.mk true (some "tok") (some .player) (some 1) (some "r") none)
      none 5).2.1 none (by decide) (by decide)⟩

/-- C2 counterexample: in server mode, `ensureValidToken` returns successfully
and issues no refresh even though the session is authenticated, its token is
actually expired (expiry 1 ms, current time 1000 ms) and no refresh is
possible — where the claim demands a token-expired error instead of a silent
success. -/
theorem claim_C2_counterexample :
    AuthManager.isTokenExpired
      (AuthState.mk true (some "t") none (some 1) none none) 1000 = true ∧
    AuthManager.canRefresh
      (AuthState.mk true (some "t") none (some 1) none none) 1000 = false ∧
    AuthManager.ensureValidToken true
        (AuthState.mk true (some "t") none (some 1) none none) none 1000
        AuthManager.defaultRefreshThresholdMs .networkError =
      ⟨AuthState.mk true (some "t") none (some 1) none none, none, .ok (), false⟩ := by
  decide

/-- A `canRefresh s now = true` unpacked into the preconditions checked by
`refreshToken` itself. -/
theorem canRefresh_preconditions (s : AuthState) (now : Nat)
    (hcan : AuthManager.canRefresh s now = true) :
    strTruthy s.refreshToken = true ∧
    (natTruthy s.refreshExpiresAt &&
      decide (now ≥ s.refreshExpiresAt.getD 0)) = false := by
  unfold AuthManager.canRefresh at hcan
  split at hcan
  · exact absurd hcan (by simp)
  · rename_i h1
    refine ⟨by simpa using h1, ?_⟩
    split at hcan
    · rename_i h2
      cases hn : natTruthy s.refreshExpiresAt
      · simp
      · exact absurd hn (by simpa using h2)
    · rename_i h2
      have hlt := of_decide_eq_true hcan
      cases hn : natTruthy s.refreshExpiresAt
      · simp
      · simp only [Bool.true_and, decide_eq_false_iff_not]
        omega

/-- A refresh attempt whose preconditions pass always issues the network
request. -/
theorem refreshToken_requested (s : AuthState) (stored : Option AuthState)
    (now : Nat) (resp : FetchResult RefreshData)
    (hcan : AuthManager.canRefresh s now = true) :
    (AuthManager.refreshToken s stored now resp).requested = true := by
  obtain ⟨h1, h2⟩ := canRefresh_preconditions s now hcan
  unfold AuthManager.refreshToken
  rw [if_neg (by simp [h1]), if_neg (by simp [h2])]
  cases resp with
  | success d => rfl
  | httpError status ec =>
    simp only
    split <;> rfl
  | networkError => rfl

/-- `ensureValidToken` in the refreshable branch reduces to the refresh
attempt followed by the expired-or-swallow dispatch. -/
theorem ensureValidToken_refresh_case (s : AuthState) (stored : Option AuthState)
    (now thresholdMs : Nat) (resp : FetchResult RefreshData)
    (hauth : s.isAuthenticated = true) (htok : strTruthy s.token = true)
    (hsoon : AuthManager.isTokenExpiringSoon s now thresholdMs = true)
    (hcan : AuthManager.canRefresh s now = true) :
    AuthManager.ensureValidToken false s stored now thresholdMs resp =
      (match (AuthManager.refreshToken s stored now resp).result with
       | .ok _ =>
         ⟨(AuthManager.refreshToken s stored now resp).state,
           (AuthManager.refreshToken s stored now resp).stored, .ok (),
           (AuthManager.refreshToken s stored now resp).requested⟩
       | .error e =>
         if AuthManager.isTokenExpired
             (AuthManager.refreshToken s stored now resp).state now then
           ⟨(AuthManager.refreshToken s stored now resp).state,
             (AuthManager.refreshToken s stored now resp).stored, .error e,
             (AuthManager.refreshToken s stored now resp).requested⟩
         else
           ⟨(AuthManager.refreshToken s stored now resp).state,
             (AuthManager.refreshToken s stored now resp).stored, .ok (),
             (AuthManager.refreshToken s stored now resp).requested⟩) := by
  unfold AuthManager.ensureValidToken
  rw [if_neg (by simp), if_neg (by simp [hauth, htok]),
    if_neg (by simp [hsoon]), if_pos hcan]

/-- `ensureValidToken` in the non-refreshable branch reduces to the
expired-check dispatch. -/
theorem ensureValidToken_norefresh_case (s : AuthState) (stored : Option AuthState)
    (now thresholdMs : Nat) (resp : FetchResult RefreshData)
    (hauth : s.isAuthenticated = true) (htok : strTruthy s.token = true)
    (hsoon : AuthManager.isTokenExpiringSoon s now thresholdMs = true)
    (hcan : AuthManager.canRefresh s now = false) :
    AuthManager.ensureValidToken false s stored now thresholdMs resp =
      (if AuthManager.isTokenExpired s now then
        ⟨s, stored, .error ⟨some "TOKEN_EXPIRED", none⟩, false⟩
      else ⟨s, stored, .ok (), false⟩) := by
  unfold AuthManager.ensureValidToken
  rw [if_neg (by simp), if_neg (by simp [hauth, htok]),
    if_neg (by simp [hsoon]), if_neg (by simp [hcan])]

/-- C2 amended: full behaviour of `ensureValidToken`.  The claim holds with
two corrections forced by the code: (1) server mode is an additional
unconditional no-op; (2) when a refresh was attempted and failed, the call
rethrows exactly when the session AS LEFT BY THE FAILED REFRESH is actually
expired — after a 401 the refresh itself clears the session, so the error is
swallowed even if the old token was expired.  All other parts are as claimed:
no-op when unauthenticated, when no expiry is tracked, or when the token is
not within the threshold; a failed refresh on a not-yet-expired token is
swallowed; and with no refresh possible an actually expired token raises
`TOKEN_EXPIRED` rather than silently succeeding. -/
theorem claim_C2_ensure_valid_token (serverMode : Bool) (s : AuthState)
    (stored : Option AuthState) (now thresholdMs : Nat)
    (resp : FetchResult RefreshData) :
    (serverMode = true →
      AuthManager.ensureValidToken serverMode s stored now thresholdMs resp =
        ⟨s, stored, .ok (), false⟩) ∧
    (s.isAuthenticated = false ∨ strTruthy s.token = false →
      AuthManager.ensureValidToken serverMode s stored now thresholdMs resp =
        ⟨s, stored, .ok (), false⟩) ∧
    (s.expiresAt = none →
      AuthManager.ensureValidToken serverMode s stored now thresholdMs resp =
        ⟨s, stored, .ok (), false⟩) ∧
    (AuthManager.isTokenExpiringSoon s now thresholdMs = false →
      AuthManager.ensureValidToken serverMode s stored now thresholdMs resp =
        ⟨s, stored, .ok (), false⟩) ∧
    (serverMode = false → s.isAuthenticated = true → strTruthy s.token = true →
      AuthManager.isTokenExpiringSoon s now thresholdMs = true →
      AuthManager.canRefresh s now = true →
      (AuthManager.ensureValidToken serverMode s stored now thresholdMs resp).requested
          = true ∧
      (∀ d, (AuthManager.refreshToken s stored now resp).result = .ok d →
        (AuthManager.ensureValidToken serverMode s stored now thresholdMs resp).result
          = .ok ()) ∧
      (∀ e, (AuthManager.refreshToken s stored now resp).result = .error e →
        ((AuthManager.isTokenExpired
            (AuthManager.refreshToken s stored now resp).state now = true →
          (AuthManager.ensureValidToken serverMode s stored now thresholdMs resp).result
            = .error e) ∧
         (AuthManager.isTokenExpired
            (AuthManager.refreshToken s stored now resp).state now = false →
          (AuthManager.ensureValidToken serverMode s stored now thresholdMs resp).result
            = .ok ())))) ∧
    (serverMode = false → s.isAuthenticated = true → strTruthy s.token = true →
      AuthManager.isTokenExpiringSoon s now thresholdMs = true →
      AuthManager.canRefresh s now = false →
      (AuthManager.isTokenExpired s now = true →
        (AuthManager.ensureValidToken serverMode s stored now thresholdMs resp).result
          = .error ⟨some "TOKEN_EXPIRED", none⟩) ∧
      (AuthManager.isTokenExpired s now = false →
        AuthManager.ensureValidToken serverMode s stored now thresholdMs resp =
          ⟨s, stored, .ok (), false⟩)) := by
  refine ⟨?_, ?_, ?_, ?_, ?_, ?_⟩
  · intro h
    subst h
    unfold AuthManager.ensureValidToken
    rw [if_pos rfl]
  · intro h
    unfold AuthManager.ensureValidToken
    split
    · rfl
    · rw [if_pos (by rcases h with h | h <;> simp [h])]
  · intro h
    have hsoon : AuthManager.isTokenExpiringSoon s now thresholdMs = false := by
      simp [AuthManager.isTokenExpiringSoon, h, natTruthy]
    unfold AuthManager.ensureValidToken
    split
    · rfl
    · split
      · rfl
      · rw [if_pos (by simp [hsoon])]
  · intro hsoon
    unfold AuthManager.ensureValidToken
    split
    · rfl
    · split
      · rfl
      · rw [if_pos (by simp [hsoon])]
  · intro hsm hauth htok hsoon hcan
    subst hsm
    have hreq := refreshToken_requested s stored now resp hcan
    rw [ensureValidToken_refresh_case s stored now thresholdMs resp hauth htok hsoon hcan]
    refine ⟨?_, ?_, ?_⟩
    · cases hres : (AuthManager.refreshToken s stored now resp).result with
      | ok d => simpa using hreq
      | error e =>
        simp only
        split <;> simpa using hreq
    · intro d hd
      rw [hd]
    · intro e he
      rw [he]
      constructor
      · intro hex
        simp only [if_pos hex]
      · intro hex
        rw [hex]
        simp
  · intro hsm hauth htok hsoon hcan
    subst hsm
    rw [ensureValidToken_norefresh_case s stored now thresholdMs resp hauth htok hsoon hcan]
    constructor
    · intro hex
      rw [if_pos hex]
    · intro hex
      rw [hex]
      simp

/-- Witness for C2 amended: a not-yet-expired token inside the refresh window
whose refresh fails with a network error; the failure is swallowed. -/
theorem claim_C2_ensure_valid_token_witness :
    AuthManager.isTokenExpiringSoon
      (AuthState.mk true (some "t") none (some 2000) (some "r") none) 1000
      AuthManager.defaultRefreshThresholdMs = true ∧
    ((AuthManager.refreshToken
        (AuthState.mk true (some "t") none (some 2000) (some "r") none) none 1000
        FetchResult.networkError).result =
      Except.error ⟨some "REFRESH_NETWORK_ERROR", none⟩ →
      ((AuthManager.isTokenExpired
          (AuthManager.refreshToken
            (AuthState.mk true (some "t") none (some 2000) (some "r") none) none 1000
            FetchResult.networkError).state 1000 = true →
        (AuthManager.ensureValidToken false
          (AuthState.mk true (some "t") none (some 2000) (some "r") none) none 1000
          AuthManager.defaultRefreshThresholdMs FetchResult.networkError).result =
            .error ⟨some "REFRESH_NETWORK_ERROR", none⟩) ∧
       (AuthManager.isTokenExpired
          (AuthManager.refreshToken
            (AuthState.mk true (some "t") none (some 2000) (some "r") none) none 1000
            FetchResult.networkError).state 1000 = false →
        (AuthManager.ensureValidToken false
          (AuthState.mk true (some "t") none (some 2000) (some "r") none) none 1000
          AuthManager.defaultRefreshThresholdMs FetchResult.networkError).result =
            .ok ()))) :=
  ⟨by decide,
    ((claim_C2_ensure_valid_token false
        (AuthState.mk true (some "t") none (some 2000) (some "r") none) none 1000
        AuthManager.defaultRefreshThresholdMs FetchResult.networkError).2.2.2.2.1
      rfl rfl (by decide) (by decide) (by decide)).2.2
      ⟨some "REFRESH_NETWORK_ERROR", none⟩⟩

/-- C9: with no recorded access-token expiry, `isTokenExpired` and
`isTokenExpiringSoon` are false at every current time and threshold, and
`ensureValidToken` is a complete no-op — it never issues a refresh request,
never changes state, and never throws.  This covers statically supplied
developer, player, and platform-injected tokens, which are stored without an
`expiresAt`. -/
theorem claim_C9_no_expiry_is_never_stale (s : AuthState) (now thresholdMs : Nat)
    (serverMode : Bool) (stored : Option AuthState) (resp : FetchResult RefreshData)
    (h : s.expiresAt = none) :
    AuthManager.isTokenExpired s now = false ∧
    AuthManager.isTokenExpiringSoon s now thresholdMs = false ∧
    AuthManager.ensureValidToken serverMode s stored now thresholdMs resp =
      ⟨s, stored, .ok (), false⟩ := by
  have h1 : AuthManager.isTokenExpired s now = false := by
    simp [AuthManager.isTokenExpired, h, natTruthy]
  have h2 : AuthManager.isTokenExpiringSoon s now thresholdMs = false := by
    simp [AuthManager.isTokenExpiringSoon, h, natTruthy]
  refine ⟨h1, h2, ?_⟩
  unfold AuthManager.ensureValidToken
  split
  · rfl
  · split
    · rfl
    · rw [if_pos (by simp [h2])]

/-- Witness for C9: a developer-token session (no expiry tracked). -/
theorem claim_C9_no_expiry_is_never_stale_witness :
    (AuthState.mk true (some "dev") (some .developer) none none none).expiresAt
      = none ∧
    (AuthManager.isTokenExpired
        (AuthState.mk true (some "dev") (some .developer) none none none) 999999
      = false ∧
    AuthManager.isTokenExpiringSoon
        (AuthState.mk true (some "dev") (some .developer) none none none) 999999
        AuthManager.defaultRefreshThresholdMs = false ∧
    AuthManager.ensureValidToken false
        (AuthState.mk true (some "dev") (some .developer) none none none) none
        999999 AuthManager.defaultRefreshThresholdMs .networkError =
      ⟨AuthState.mk true (some "dev") (some .developer) none none none, none,
        .ok (), false⟩) :=
  ⟨rfl, claim_C9_no_expiry_is_never_stale
    (AuthState.mk true (some "dev") (some .developer) none none none) 999999
    AuthManager.defaultRefreshThresholdMs false none .networkError rfl⟩

namespace DeviceAuthFlowManager

/-- The state produced by every branch of `pollStep` keeps the `aborted` flag
of its input. -/
theorem pollStep_state_aborted (st : PollState) (now deadline : Nat)
    (resp : PollResponse) :
    (pollStep st now deadline resp).state.aborted = st.aborted := by
  unfold pollStep
  split
  · rfl
  · split
    · rfl
    · cases resp with
      | pending i =>
        simp only
        split <;> rfl
      | authorized d => rfl
      | errSlowDown => rfl
      | errAccessDenied => rfl
      | errExpiredToken d => rfl
      | errOther c s => rfl
      | netError => rfl

/-- `slowDownTrace` never changes the `aborted` flag. -/
theorem slowDownTrace_aborted (st : PollState) (n : Nat) :
    (slowDownTrace st n).aborted = st.aborted := by
  induction n with
  | zero => rfl
  | succ n ih =>
    show (pollStep (slowDownTrace st n) 0 1 .errSlowDown).state.aborted = st.aborted
    rw [pollStep_state_aborted, ih]

/-- Interval recurrence under consecutive `slow_down` responses. -/
theorem slowDownTrace_interval_succ (st : PollState) (hab : st.aborted = false)
    (n : Nat) :
    (slowDownTrace st (n + 1)).interval =
      min ((slowDownTrace st n).interval * 2) 30000 := by
  have ha : (slowDownTrace st n).aborted = false := by
    rw [slowDownTrace_aborted, hab]
  show (pollStep (slowDownTrace st n) 0 1 .errSlowDown).state.interval = _
  unfold pollStep
  rw [if_neg (by simp [ha]), if_neg (by omega)]

end DeviceAuthFlowManager

namespace DeviceAuthFlowManager

/-- `cancel` is the identity on states that are already aborted with no
pending timer. -/
theorem cancel_fixed (st : PollState) (hab : st.aborted = true)
    (hp : st.timeoutPending = false) : cancel st = st := by
  cases st
  simp_all [cancel]

/-- From an aborted state with no pending timer, no scheduler event ever runs
another poll iteration: the state is unchanged, no outcome is settled, and no
request is issued, over any event sequence. -/
theorem runFlow_after_cancel (st : PollState) (deadline : Nat)
    (hab : st.aborted = true) (hp : st.timeoutPending = false) :
    ∀ events, runFlow st deadline events = (st, [], 0) := by
  intro events
  induction events with
  | nil => rfl
  | cons e es ih =>
    cases e with
    | timerFire now resp =>
      have hstep : flowStep st deadline (.timerFire now resp) =
          (st, none, false) := by
        simp only [flowStep]
        rw [if_neg (by simp [hp])]
      simp only [runFlow, hstep, ih]
      rfl
    | cancelEv =>
      have hstep : flowStep st deadline .cancelEv = (st, none, false) := by
        simp only [flowStep]
        rw [cancel_fixed st hab hp]
      simp only [runFlow, hstep, ih]
      rfl

end DeviceAuthFlowManager

/-- C4 counterexample: `cancel()` invoked during the backoff wait — a live
flow (aborted flag down) whose retry timer is pending.  `cancel` clears that
timer, which was the only scheduled re-entry into the loop, so over any
subsequent scheduler events (shown here: three timer firings that would have
carried a pending, a slow-down and even an authorized response) the flow
settles NO outcome at all: the outstanding promise is never rejected with the
cancelled error, contradicting the claim that cancellation causes exactly one
cancelled rejection. -/
theorem claim_C4_counterexample :
    DeviceAuthFlowManager.runFlow
        (DeviceAuthFlowManager.cancel
          (DeviceAuthFlowManager.PollState.mk false 5000 true)) 1000000
        [.timerFire 5000 (.pending none), .timerFire 10000 .errSlowDown,
         .timerFire 20000 (.authorized
           (DeviceAuthResult.mk "a" "bearer" 3600 "r" 86400 "player:play"))] =
      (DeviceAuthFlowManager.PollState.mk true 5000 false, [], 0) := by
  decide

/-- C4 amended: `cancel()` sets the aborted flag, clears any pending retry
timer, and is idempotent; clearing the timer removes the only scheduled
re-entry into the loop, so after a cancel during the backoff wait no further
poll iteration runs, no network request is issued, and the flow promise never
settles — it is NOT rejected.  The cancelled rejection occurs, exactly once
and without a network request, in the one remaining way an iteration can run
after cancellation: when the iteration whose fetch was in flight at cancel
time completes with a non-terminal response and installs a fresh timer; the
aborted check at the top of that next iteration rejects the promise with the
`CANCELLED` error, and nothing settles afterwards. -/
theorem claim_C4_cancel_amended (st : DeviceAuthFlowManager.PollState)
    (deadline now : Nat) (resp : DeviceAuthFlowManager.PollResponse)
    (events : List DeviceAuthFlowManager.FlowEvent) :
    (DeviceAuthFlowManager.cancel st).aborted = true ∧
    (DeviceAuthFlowManager.cancel st).timeoutPending = false ∧
    DeviceAuthFlowManager.cancel (DeviceAuthFlowManager.cancel st) =
      DeviceAuthFlowManager.cancel st ∧
    DeviceAuthFlowManager.runFlow (DeviceAuthFlowManager.cancel st) deadline
      events = (DeviceAuthFlowManager.cancel st, [], 0) ∧
    (∀ st2 : DeviceAuthFlowManager.PollState, st2.aborted = true →
      st2.timeoutPending = true →
      DeviceAuthFlowManager.runFlow st2 deadline
          (.timerFire now resp :: events) =
        ({ st2 with timeoutPending := false }, [.rejected "CANCELLED"], 0)) := by
  refine ⟨rfl, rfl, rfl,
    DeviceAuthFlowManager.runFlow_after_cancel _ deadline rfl rfl events, ?_⟩
  intro st2 h2a h2p
  have hpoll : DeviceAuthFlowManager.pollStep
      { st2 with timeoutPending := false } now deadline resp =
      ⟨{ st2 with timeoutPending := false },
        some (.rejected "CANCELLED"), false⟩ := by
    unfold DeviceAuthFlowManager.pollStep
    rw [if_pos (show ({ st2 with timeoutPending := false } :
      DeviceAuthFlowManager.PollState).aborted = true from h2a)]
  have hstep : DeviceAuthFlowManager.flowStep st2 deadline
      (.timerFire now resp) =
      ({ st2 with timeoutPending := false },
        some (.rejected "CANCELLED"), false) := by
    simp only [DeviceAuthFlowManager.flowStep]
    rw [if_pos h2p, hpoll]
  have hrest := DeviceAuthFlowManager.runFlow_after_cancel
    { st2 with timeoutPending := false } deadline h2a rfl events
  simp only [DeviceAuthFlowManager.runFlow, hstep, hrest]
  rfl

/-- Witness for C4 amended: the orphan iteration installed by an in-flight
non-terminal response firing after cancellation rejects once. -/
theorem claim_C4_cancel_amended_witness :
    (DeviceAuthFlowManager.PollState.mk true 5000 true).aborted = true ∧
    (DeviceAuthFlowManager.PollState.mk true 5000 true).timeoutPending = true ∧
    DeviceAuthFlowManager.runFlow
        (DeviceAuthFlowManager.PollState.mk true 5000 true) 1000000
        (.timerFire 42 (.pending none) :: [.cancelEv]) =
      ({ DeviceAuthFlowManager.PollState.mk true 5000 true with
          timeoutPending := false }, [.rejected "CANCELLED"], 0) :=
  ⟨rfl, rfl,
    (claim_C4_cancel_amended (DeviceAuthFlowManager.PollState.mk false 5000 false)
        1000000 42 (.pending none) [.cancelEv]).2.2.2.2
      (DeviceAuthFlowManager.PollState.mk true 5000 true) rfl rfl⟩

/-- C5: when the locally computed deadline (`initTime + (expires_in || 600)
seconds`, so 600 s when the initiate response carried no `expires_in`) has
passed at the start of a poll iteration of a non-cancelled flow, the loop
rejects with the `EXPIRED` error immediately: no network request is issued in
that iteration nor in any later one, whatever responses the server would have
given. -/
theorem claim_C5_local_deadline_enforcement (st : DeviceAuthFlowManager.PollState)
    (initTime : Nat) (expiresIn : Option Nat) (now : Nat)
    (r : DeviceAuthFlowManager.PollResponse)
    (trace : List (Nat × DeviceAuthFlowManager.PollResponse))
    (hab : st.aborted = false)
    (hnow : now ≥ DeviceAuthFlowManager.flowDeadline initTime expiresIn) :
    DeviceAuthFlowManager.runPoll st
        (DeviceAuthFlowManager.flowDeadline initTime expiresIn)
        ((now, r) :: trace) =
      (st, some (.rejected "EXPIRED"), 0) ∧
    DeviceAuthFlowManager.flowDeadline initTime none = initTime + 600 * 1000 := by
  have hstep : DeviceAuthFlowManager.pollStep st now
      (DeviceAuthFlowManager.flowDeadline initTime expiresIn) r =
      ⟨st, some (.rejected "EXPIRED"), false⟩ := by
    unfold DeviceAuthFlowManager.pollStep
    rw [if_neg (by simp [hab]), if_pos hnow]
  refine ⟨?_, rfl⟩
  simp only [DeviceAuthFlowManager.runPoll, hstep]
  rfl

/-- Witness for C5: default loop state, initiation at time 0 with no
`expires_in` (deadline 600000 ms), polled at exactly the deadline. -/
theorem claim_C5_local_deadline_enforcement_witness :
    ({} : DeviceAuthFlowManager.PollState).aborted = false ∧
    600000 ≥ DeviceAuthFlowManager.flowDeadline 0 none ∧
    (DeviceAuthFlowManager.runPoll ({} : DeviceAuthFlowManager.PollState)
        (DeviceAuthFlowManager.flowDeadline 0 none)
        ((600000, .pending none) :: [(700000, .pending none)]) =
      (({} : DeviceAuthFlowManager.PollState), some (.rejected "EXPIRED"), 0) ∧
    DeviceAuthFlowManager.flowDeadline 0 none = 0 + 600 * 1000) :=
  ⟨rfl, by decide,
    claim_C5_local_deadline_enforcement {} 0 none 600000 (.pending none)
      [(700000, .pending none)] rfl (by decide)⟩

/-- C8: over any run of consecutive `slow_down` responses (taken before the
deadline, flow not cancelled), the effective poll interval set by the n-th
`slow_down` never exceeds 30000 ms and is not decreased by the next one — and
each `slow_down` iteration sets the interval to exactly
`min (2 * current, 30000)`, as the source computes. -/
theorem claim_C8_backoff_monotone_capped (st : DeviceAuthFlowManager.PollState)
    (n : Nat) (hab : st.aborted = false) (hn : 1 ≤ n) :
    (DeviceAuthFlowManager.slowDownTrace st n).interval ≤ 30000 ∧
    (DeviceAuthFlowManager.slowDownTrace st n).interval ≤
      (DeviceAuthFlowManager.slowDownTrace st (n + 1)).interval ∧
    (DeviceAuthFlowManager.pollStep st 0 1 .errSlowDown).state.interval =
      min (st.interval * 2) 30000 := by
  obtain ⟨m, rfl⟩ : ∃ m, n = m + 1 := ⟨n - 1, by omega⟩
  have h1 := DeviceAuthFlowManager.slowDownTrace_interval_succ st hab m
  have hle : (DeviceAuthFlowManager.slowDownTrace st (m + 1)).interval ≤ 30000 := by
    rw [h1]
    exact min_le_right _ _
  refine ⟨hle, ?_, ?_⟩
  · rw [DeviceAuthFlowManager.slowDownTrace_interval_succ st hab (m + 1)]
    exact le_min (by omega) hle
  · unfold DeviceAuthFlowManager.pollStep
    rw [if_neg (by simp [hab]), if_neg (by omega)]

/-- Witness for C8: default state (5000 ms interval) after one `slow_down`. -/
theorem claim_C8_backoff_monotone_capped_witness :
    ({} : DeviceAuthFlowManager.PollState).aborted = false ∧ 1 ≤ 1 ∧
    ((DeviceAuthFlowManager.slowDownTrace ({} : DeviceAuthFlowManager.PollState)
        1).interval ≤ 30000 ∧
      (DeviceAuthFlowManager.slowDownTrace ({} : DeviceAuthFlowManager.PollState)
        1).interval ≤
        (DeviceAuthFlowManager.slowDownTrace ({} : DeviceAuthFlowManager.PollState)
          (1 + 1)).interval ∧
      (DeviceAuthFlowManager.pollStep ({} : DeviceAuthFlowManager.PollState) 0 1
        .errSlowDown).state.interval =
        min (({} : DeviceAuthFlowManager.PollState).interval * 2) 30000) :=
  ⟨rfl, by omega,
    claim_C8_backoff_monotone_capped {} 1 rfl (by omega)⟩

namespace AuthManager

/-- Calls arriving while the slot holds promise `p` all receive `p`, start no
new flow, and leave the state unchanged. -/
theorem dedupRun_calls_busy (st : DedupState) (p : Nat) (h : st.slot = some p)
    (k : Nat) :
    dedupRun st (List.replicate k .call) = (st, List.replicate k p) := by
  induction k with
  | zero => rfl
  | succ k ih =>
    have hstep : dedupStep st .call = (st, some p) := by
      unfold dedupStep
      rw [h]
    rw [List.replicate_succ]
    simp only [dedupRun, hstep, ih]
    rfl

/-- As `dedupRun_calls_busy`, with the flow settling at the end: the settle
clears the slot. -/
theorem dedupRun_busy_then_settle (st : DedupState) (p : Nat)
    (h : st.slot = some p) (k : Nat) :
    dedupRun st (List.replicate k .call ++ [.settle]) =
      ({ st with slot := none }, List.replicate k p) := by
  induction k with
  | zero => rfl
  | succ k ih =>
    have hstep : dedupStep st .call = (st, some p) := by
      unfold dedupStep
      rw [h]
    rw [List.replicate_succ, List.cons_append]
    simp only [dedupRun, hstep, ih]
    rfl

end AuthManager

/-- C3: for any `n >= 2` overlapping invocations of a flow entry point
(`startAuthFlow` / `startDeviceAuthFlow`) starting from an empty shared-slot
state, exactly one flow is created — `initiates` grows by exactly one, i.e. a
single initiate request reaches the remote endpoint — and every one of the
`n` callers receives the very same promise (`st.nextId`), hence resolves with
the identical token result or identical error; the slot stays populated with
that promise while the flow is in progress and is cleared once it settles. -/
theorem claim_C3_flow_dedup (st : AuthManager.DedupState) (n : Nat)
    (hslot : st.slot = none) (hn : 2 ≤ n) :
    (AuthManager.dedupRun st (List.replicate n .call)).1.initiates =
      st.initiates + 1 ∧
    (AuthManager.dedupRun st (List.replicate n .call)).2 =
      List.replicate n st.nextId ∧
    (AuthManager.dedupRun st (List.replicate n .call)).1.slot = some st.nextId ∧
    (AuthManager.dedupRun st (List.replicate n .call ++ [.settle])).1.slot =
      none := by
  obtain ⟨m, rfl⟩ : ∃ m, n = m + 1 := ⟨n - 1, by omega⟩
  have hstep : AuthManager.dedupStep st .call =
      (⟨some st.nextId, st.nextId + 1, st.initiates + 1⟩, some st.nextId) := by
    unfold AuthManager.dedupStep
    rw [hslot]
  have hbusy := AuthManager.dedupRun_calls_busy
    ⟨some st.nextId, st.nextId + 1, st.initiates + 1⟩ st.nextId rfl m
  have hsettle := AuthManager.dedupRun_busy_then_settle
    ⟨some st.nextId, st.nextId + 1, st.initiates + 1⟩ st.nextId rfl m
  have h1 : AuthManager.dedupRun st (List.replicate (m + 1) .call) =
      (⟨some st.nextId, st.nextId + 1, st.initiates + 1⟩,
        List.replicate (m + 1) st.nextId) := by
    rw [List.replicate_succ]
    simp only [AuthManager.dedupRun, hstep, hbusy]
    rw [List.replicate_succ]
  have h2 : AuthManager.dedupRun st (List.replicate (m + 1) .call ++ [.settle]) =
      (⟨none, st.nextId + 1, st.initiates + 1⟩,
        List.replicate (m + 1) st.nextId) := by
    rw [List.replicate_succ, List.cons_append]
    simp only [AuthManager.dedupRun, hstep, hsettle]
    rw [List.replicate_succ]
  rw [h1, h2]
  exact ⟨rfl, rfl, rfl, rfl⟩

/-- Witness for C3: two overlapping callers on a fresh manager. -/
theorem claim_C3_flow_dedup_witness :
    ({} : AuthManager.DedupState).slot = none ∧ 2 ≤ 2 ∧
    ((AuthManager.dedupRun ({} : AuthManager.DedupState)
        (List.replicate 2 .call)).1.initiates =
      ({} : AuthManager.DedupState).initiates + 1 ∧
    (AuthManager.dedupRun ({} : AuthManager.DedupState)
        (List.replicate 2 .call)).2 =
      List.replicate 2 ({} : AuthManager.DedupState).nextId ∧
    (AuthManager.dedupRun ({} : AuthManager.DedupState)
        (List.replicate 2 .call)).1.slot =
      some ({} : AuthManager.DedupState).nextId ∧
    (AuthManager.dedupRun ({} : AuthManager.DedupState)
        (List.replicate 2 .call ++ [.settle])).1.slot = none) :=
  ⟨rfl, by omega, claim_C3_flow_dedup {} 2 rfl (by omega)⟩

/-- A truthy `a || b` result is itself truthy. -/
theorem jsOrStr_truthy (a b : Option String) (pt : String)
    (h : jsOrStr a b = some pt) : strTruthy (some pt) = true := by
  unfold jsOrStr at h
  split at h
  · rename_i ha
    rwa [h] at ha
  · split at h
    · rename_i hb
      rwa [h] at hb
    · cases h

namespace AuthManager

/-- `refreshToken` preserves the session invariant when successful responses
carry a non-empty access token. -/
theorem refreshToken_tokenInvariant (s : AuthState) (stored : Option AuthState)
    (now : Nat) (resp : FetchResult RefreshData) (h : tokenInvariant s)
    (hwf : refreshRespWF resp) :
    tokenInvariant (refreshToken s stored now resp).state := by
  unfold refreshToken
  split
  · exact h
  · split
    · exact h
    · cases resp with
      | success d =>
        intro _
        simpa [strTruthy] using hwf
      | httpError status ec =>
        simp only
        split
        · intro hh
          simp [logoutState] at hh
        · exact h
      | networkError => exact h

/-- `exchangeJWT` preserves the session invariant unconditionally (the source
checks the received token for truthiness itself). -/
theorem exchangeJWT_tokenInvariant (s : AuthState) (stored : Option AuthState)
    (now : Nat) (resp : FetchResult JwtExchangeData) (h : tokenInvariant s) :
    tokenInvariant (exchangeJWT s stored now resp).state := by
  unfold exchangeJWT
  cases resp with
  | networkError => exact h
  | httpError status ec => exact h
  | success d =>
    simp only
    cases hpt : jsOrStr d.playerToken d.token with
    | none => exact h
    | some pt =>
      intro _
      exact jsOrStr_truthy d.playerToken d.token pt hpt

/-- The device-flow session updates preserve the invariant when the result
carries a non-empty access token. -/
theorem applyDeviceAuthResult_tokenInvariant (d : DeviceAuthResult) (now : Nat)
    (hd : d.access_token ≠ "") :
    tokenInvariant (applyDeviceAuthResult d now) ∧
    tokenInvariant (applyDeviceAuthResultPlayer d now) := by
  constructor <;> intro _ <;> simpa [applyDeviceAuthResult,
    applyDeviceAuthResultPlayer, strTruthy] using hd

/-- `initAuthFinal` preserves the session invariant. -/
theorem initAuthFinal_tokenInvariant (cfg : InitConfig) (env : InitEnv)
    (s : AuthState) (stored : Option AuthState) (h : tokenInvariant s)
    (hd : deviceResultWF env.deviceResult) :
    tokenInvariant (initAuthFinal cfg env s stored).state := by
  unfold initAuthFinal
  split
  · exact h
  · split
    · split
      · cases env.headlessFlowToken with
        | error e => exact h
        | ok t =>
          simp only
          exact exchangeJWT_tokenInvariant s stored env.now env.jwtResp h
      · cases hdr : env.deviceResult with
        | error e => exact h
        | ok d =>
          rw [hdr] at hd
          simp only
          exact (applyDeviceAuthResult_tokenInvariant d env.now hd).2
    · exact h

/-- `initAuthAfterSaved` preserves the session invariant. -/
theorem initAuthAfterSaved_tokenInvariant (cfg : InitConfig) (env : InitEnv)
    (s : AuthState) (stored : Option AuthState) (h : tokenInvariant s)
    (hd : deviceResultWF env.deviceResult) :
    tokenInvariant (initAuthAfterSaved cfg env s stored).state := by
  unfold initAuthAfterSaved
  split
  · exact exchangeJWT_tokenInvariant s stored env.now env.jwtResp h
  · split
    · cases hpt : (if strTruthy env.platformToken then env.platformToken else none) with
      | none =>
        simp only [hpt]
        exact initAuthFinal_tokenInvariant cfg env s stored h hd
      | some t =>
        simp only [hpt]
        intro _
        split at hpt
        · rename_i htr
          rwa [hpt] at htr
        · cases hpt
    · exact initAuthFinal_tokenInvariant cfg env s stored h hd

/-- `initAuth` preserves the session invariant when the refresh response and
the device-flow outcome are well formed. -/
theorem initAuth_tokenInvariant (cfg : InitConfig) (env : InitEnv)
    (s0 : AuthState) (stored0 : Option AuthState) (h0 : tokenInvariant s0)
    (hr : refreshRespWF env.refreshResp) (hd : deviceResultWF env.deviceResult) :
    tokenInvariant (initAuth cfg env s0 stored0).state := by
  unfold initAuth
  split
  · rename_i hdev
    intro _
    simpa using hdev
  · split
    · rename_i hpl
      intro _
      simpa using hpl
    · cases hss : env.storedState with
      | none => exact initAuthAfterSaved_tokenInvariant cfg env s0 stored0 h0 hd
      | some saved =>
        simp only
        split
        · rename_i hsv
          split
          · intro _
            exact hsv
          · split
            · have hsinv : tokenInvariant saved := fun _ => hsv
              have hrinv := refreshToken_tokenInvariant saved stored0 env.now
                env.refreshResp hsinv hr
              cases hres : (refreshToken saved stored0 env.now env.refreshResp).result with
              | ok v =>
                simp only [hres]
                exact hrinv
              | error e =>
                simp only [hres]
                exact initAuthAfterSaved_tokenInvariant cfg env _ _ hrinv hd
            · exact initAuthAfterSaved_tokenInvariant cfg env s0 stored0 h0 hd
        · exact initAuthAfterSaved_tokenInvariant cfg env s0 stored0 h0 hd

end AuthManager

/-- C6 counterexample: a successful refresh response whose `access_token` is
the empty string leaves the session authenticated with an empty access token,
violating the invariant as literally claimed (the code stores the body field
without a non-emptiness check). -/
theorem claim_C6_counterexample :
    (AuthManager.refreshToken
        (AuthState.mk true (some "tok") (some .player) (some 1) (some "r") none)
        none 5
        (.success (RefreshData.mk "" "bearer" 3600 "r2" 86400 "player:play"))).state.isAuthenticated
      = true ∧
    (AuthManager.refreshToken
        (AuthState.mk true (some "tok") (some .player) (some 1) (some "r") none)
        none 5
        (.success (RefreshData.mk "" "bearer" 3600 "r2" 86400 "player:play"))).state.token
      = some "" := by
  decide

/-- C6 amended: across every state-producing operation of the Session Manager
— `initialize`, `exchangeJWT`, device-authorization flow completion
(`executeDeviceAuthFlow` and `executeAuthFlow`), `pollDeviceAuth` (which
applies the same `applyDeviceAuthResult` update), `refreshToken`, and
`logout` — an authenticated resulting session carries a present, non-empty
access token, PROVIDED every successful refresh or device-flow response
delivers a non-empty `access_token` (and the entry state already satisfies
the invariant; the constructor state `logoutState` does).  The JWT-exchange
path needs no such hypothesis because the source validates the received token
itself. -/
theorem claim_C6_token_invariant (cfg : AuthManager.InitConfig)
    (env : AuthManager.InitEnv) (s0 s : AuthState)
    (stored0 stored : Option AuthState) (now : Nat)
    (resp : FetchResult RefreshData) (jresp : FetchResult JwtExchangeData)
    (d : DeviceAuthResult)
    (h0 : tokenInvariant s0) (h1 : refreshRespWF env.refreshResp)
    (h2 : deviceResultWF env.deviceResult) (h3 : tokenInvariant s)
    (h4 : refreshRespWF resp) (h5 : d.access_token ≠ "") :
    tokenInvariant (AuthManager.initAuth cfg env s0 stored0).state ∧
    tokenInvariant (AuthManager.refreshToken s stored now resp).state ∧
    tokenInvariant (AuthManager.exchangeJWT s stored now jresp).state ∧
    tokenInvariant (AuthManager.applyDeviceAuthResult d now) ∧
    tokenInvariant (AuthManager.applyDeviceAuthResultPlayer d now) ∧
    tokenInvariant AuthManager.logoutState :=
  ⟨AuthManager.initAuth_tokenInvariant cfg env s0 stored0 h0 h1 h2,
   AuthManager.refreshToken_tokenInvariant s stored now resp h3 h4,
   AuthManager.exchangeJWT_tokenInvariant s stored now jresp h3,
   (AuthManager.applyDeviceAuthResult_tokenInvariant d now h5).1,
   (AuthManager.applyDeviceAuthResult_tokenInvariant d now h5).2,
   by decide⟩

/-- Witness for C6 amended: a fresh interactive manager whose device flow
succeeds, a refresh with a proper token, a JWT exchange, and logout. -/
theorem claim_C6_token_invariant_witness :
    tokenInvariant AuthManager.logoutState ∧
    refreshRespWF (FetchResult.success
      (RefreshData.mk "newtok" "bearer" 3600 "r2" 86400 "player:play")) ∧
    deviceResultWF (Except.ok
      (DeviceAuthResult.mk "dtok" "bearer" 3600 "dr" 2592000 "player:play")) ∧
    "dtok" ≠ "" ∧
    (tokenInvariant (AuthManager.initAuth {}
        { deviceResult := Except.ok
            (DeviceAuthResult.mk "dtok" "bearer" 3600 "dr" 2592000 "player:play"),
          refreshResp := FetchResult.success
            (RefreshData.mk "newtok" "bearer" 3600 "r2" 86400 "player:play") }
        AuthManager.logoutState none).state ∧
     tokenInvariant (AuthManager.refreshToken AuthManager.logoutState none 0
        (FetchResult.success
          (RefreshData.mk "newtok" "bearer" 3600 "r2" 86400 "player:play"))).state ∧
     tokenInvariant (AuthManager.exchangeJWT AuthManager.logoutState none 0
        (FetchResult.success (JwtExchangeData.mk (some "pt") none none))).state ∧
     tokenInvariant (AuthManager.applyDeviceAuthResult
        (DeviceAuthResult.mk "dtok" "bearer" 3600 "dr" 2592000 "player:play") 0) ∧
     tokenInvariant (AuthManager.applyDeviceAuthResultPlayer
        (DeviceAuthResult.mk "dtok" "bearer" 3600 "dr" 2592000 "player:play") 0) ∧
     tokenInvariant AuthManager.logoutState) :=
  ⟨by decide, by decide, by decide, by decide,
    claim_C6_token_invariant {}
      { deviceResult := Except.ok
          (DeviceAuthResult.mk "dtok" "bearer" 3600 "dr" 2592000 "player:play"),
        refreshResp := FetchResult.success
          (RefreshData.mk "newtok" "bearer" 3600 "r2" 86400 "player:play") }
      AuthManager.logoutState AuthManager.logoutState none none 0
      (FetchResult.success
        (RefreshData.mk "newtok" "bearer" 3600 "r2" 86400 "player:play"))
      (FetchResult.success (JwtExchangeData.mk (some "pt") none none))
      (DeviceAuthResult.mk "dtok" "bearer" 3600 "dr" 2592000 "player:play")
      (by decide) (by decide) (by decide) (by decide) (by decide) (by decide)⟩

/-- C7 counterexample: a stored record corrupted to the string `1234`.  The
decryption primitive rejects it (`decryptRaw` yields `none`, as AES-GCM
authentication fails), `decrypt` falls back to returning the raw string, and
the host `JSON.parse` — modelled here on the probed input exactly as the real
one behaves, `JSON.parse("1234") = 1234` — succeeds, so `loadAuthState`
returns a non-null garbage value instead of the claimed null. -/
theorem claim_C7_counterexample :
    TokenStorage.loadAuthState true (fun _ => none)
        (fun str => if str = "1234" then some (1234 : Nat) else none)
        (some "1234") =
      some 1234 := by
  decide

/-- C7 amended: `loadAuthState` on a corrupted record never throws (it is a
total function into an option here, mirroring the catch-all in the source)
and returns null whenever the raw corrupted ciphertext does not itself parse
as JSON — which is the case for every ordinary base64 ciphertext that is not
a bare JSON literal.  When the corrupted string happens to parse (see the
counterexample), the parsed raw value is returned instead of null. -/
theorem claim_C7_corruption_is_cache_miss {α : Type} (hasKey : Bool)
    (decryptRaw : String → Option String) (parseJson : String → Option α)
    (enc : String) (hcorrupt : decryptRaw enc = none)
    (hparse : parseJson enc = none) :
    TokenStorage.loadAuthState hasKey decryptRaw parseJson (some enc) = none := by
  have hdec : TokenStorage.decrypt hasKey decryptRaw enc = enc := by
    unfold TokenStorage.decrypt
    split
    · rw [hcorrupt]
    · rfl
  show (if enc = "" then none
        else
          match parseJson (TokenStorage.decrypt hasKey decryptRaw enc) with
          | some v => some v
          | none => none) = none
  rw [hdec, hparse]
  split <;> rfl

/-- Witness for C7 amended: an encrypted record corrupted to a non-JSON
string. -/
theorem claim_C7_corruption_is_cache_miss_witness :
    ((fun _ : String => (none : Option String)) "YWJjZA") = none ∧
    ((fun str : String => if str = "1234" then some (1234 : Nat) else none)
      "YWJjZA") = none ∧
    TokenStorage.loadAuthState true (fun _ => none)
        (fun str => if str = "1234" then some (1234 : Nat) else none)
        (some "YWJjZA") =
      none :=
  ⟨rfl, by decide,
    claim_C7_corruption_is_cache_miss true (fun _ => none)
      (fun str => if str = "1234" then some (1234 : Nat) else none)
      "YWJjZA" rfl (by decide)⟩

namespace CryptoUtils

/-- Induction on a byte list in the three-byte groups base64 works with. -/
theorem chunk3_induction (P : List Nat → Prop) (h0 : P [])
    (h1 : ∀ a, P [a]) (h2 : ∀ a b, P [a, b])
    (h3 : ∀ a b c rest, P rest → P (a :: b :: c :: rest)) :
    ∀ l, P l
  | [] => h0
  | [a] => h1 a
  | [a, b] => h2 a b
  | a :: b :: c :: rest =>
    h3 a b c rest (chunk3_induction P h0 h1 h2 h3 rest)

/-- Decoding a 6-bit group character recovers the group. -/
theorem charSextet_sextetChar : ∀ n, n < 64 → charSextet (sextetChar n) = n := by
  decide

/-- Alphabet characters are not the padding character. -/
theorem sextetChar_ne_pad : ∀ n, n < 64 → sextetChar n ≠ '=' := by
  decide

/-- URL-substituted alphabet characters are not the padding character. -/
theorem urlSafe_sextet_ne_pad : ∀ n, n < 64 → urlSafeChar (sextetChar n) ≠ '=' := by
  decide

/-- The URL substitution is undone exactly on alphabet characters. -/
theorem unUrl_urlSafe_sextet :
    ∀ n, n < 64 → unUrlChar (urlSafeChar (sextetChar n)) = sextetChar n := by
  decide

/-- The URL substitution never outputs the characters it replaces. -/
theorem urlSafeChar_ne (d : Char) : urlSafeChar d ≠ '+' ∧ urlSafeChar d ≠ '/' := by
  unfold urlSafeChar
  split
  · decide
  · split
    · decide
    · rename_i h1 h2
      exact ⟨h1, h2⟩

/-- Standard base64 decoding inverts standard base64 encoding on byte
lists. -/
theorem base64Decode_base64Encode :
    ∀ b : List Nat, (∀ x ∈ b, x < 256) → base64Decode (base64Encode b) = b := by
  refine chunk3_induction _ ?_ ?_ ?_ ?_
  · intro _
    rfl
  · intro a hb
    have ha : a < 256 := hb a (by simp)
    show base64Decode [sextetChar (a / 4), sextetChar (a % 4 * 16), '=', '='] = [a]
    simp only [base64Decode, if_true]
    rw [charSextet_sextetChar _ (by omega), charSextet_sextetChar _ (by omega)]
    simp only [List.cons.injEq, and_true]
    omega
  · intro a b hb
    have ha : a < 256 := hb a (by simp)
    have hbb : b < 256 := hb b (by simp)
    show base64Decode [sextetChar (a / 4), sextetChar (a % 4 * 16 + b / 16),
      sextetChar (b % 16 * 4), '='] = [a, b]
    simp only [base64Decode, if_true]
    rw [if_neg (sextetChar_ne_pad _ (by omega))]
    rw [charSextet_sextetChar _ (by omega), charSextet_sextetChar _ (by omega),
      charSextet_sextetChar _ (by omega)]
    simp only [List.cons.injEq, and_true]
    constructor <;> omega
  · intro a b c rest ih hb
    have ha : a < 256 := hb a (by simp)
    have hbb : b < 256 := hb b (by simp)
    have hc : c < 256 := hb c (by simp)
    have hrest : ∀ x ∈ rest, x < 256 := fun x hx => hb x (by simp [hx])
    show base64Decode (sextetChar (a / 4) :: sextetChar (a % 4 * 16 + b / 16) ::
      sextetChar (b % 16 * 4 + c / 64) :: sextetChar (c % 64) ::
      base64Encode rest) = a :: b :: c :: rest
    simp only [base64Decode]
    rw [if_neg (sextetChar_ne_pad _ (by omega)),
      if_neg (sextetChar_ne_pad _ (by omega))]
    rw [charSextet_sextetChar _ (by omega), charSextet_sextetChar _ (by omega),
      charSextet_sextetChar _ (by omega), charSextet_sextetChar _ (by omega)]
    rw [ih hrest]
    simp only [List.cons.injEq, and_true]
    refine ⟨by omega, by omega, by omega⟩

/-- The URL substitution fixes the padding character. -/
theorem urlSafeChar_pad : urlSafeChar '=' = '=' := by
  decide

/-- `rePad` only inspects the length modulo four, so a full leading group of
four characters does not change it. -/
theorem rePad_cons4 (c1 c2 c3 c4 : Char) (l : List Char) :
    rePad (c1 :: c2 :: c3 :: c4 :: l) = rePad l := by
  have hlen : (c1 :: c2 :: c3 :: c4 :: l).length % 4 = l.length % 4 := by
    simp only [List.length_cons]
    omega
  unfold rePad
  rw [hlen]

/-- Undoing the URL substitution and re-adding the stripped padding of
`base64URLEncode` output recovers the standard base64 encoding. -/
theorem url_restore :
    ∀ b : List Nat, (∀ x ∈ b, x < 256) →
      (base64URLEncode b).map unUrlChar ++
        rePad ((base64URLEncode b).map unUrlChar) = base64Encode b := by
  refine chunk3_induction _ ?_ ?_ ?_ ?_
  · intro _
    rfl
  · intro a hb
    have ha : a < 256 := hb a (by simp)
    have n1 := urlSafe_sextet_ne_pad (a / 4) (by omega)
    have n2 := urlSafe_sextet_ne_pad (a % 4 * 16) (by omega)
    have hurl : base64URLEncode [a] =
        [urlSafeChar (sextetChar (a / 4)), urlSafeChar (sextetChar (a % 4 * 16))] := by
      show (List.filter _ (List.map urlSafeChar
        [sextetChar (a / 4), sextetChar (a % 4 * 16), '=', '='])) = _
      simp [List.filter_cons, n1, n2, urlSafeChar_pad]
    rw [hurl]
    simp only [List.map_cons, List.map_nil,
      unUrl_urlSafe_sextet _ (by omega : a / 4 < 64),
      unUrl_urlSafe_sextet _ (by omega : a % 4 * 16 < 64)]
    show _ = [sextetChar (a / 4), sextetChar (a % 4 * 16), '=', '=']
    simp [rePad]
  · intro a b hb
    have ha : a < 256 := hb a (by simp)
    have hbb : b < 256 := hb b (by simp)
    have n1 := urlSafe_sextet_ne_pad (a / 4) (by omega)
    have n2 := urlSafe_sextet_ne_pad (a % 4 * 16 + b / 16) (by omega)
    have n3 := urlSafe_sextet_ne_pad (b % 16 * 4) (by omega)
    have hurl : base64URLEncode [a, b] =
        [urlSafeChar (sextetChar (a / 4)),
         urlSafeChar (sextetChar (a % 4 * 16 + b / 16)),
         urlSafeChar (sextetChar (b % 16 * 4))] := by
      show (List.filter _ (List.map urlSafeChar
        [sextetChar (a / 4), sextetChar (a % 4 * 16 + b / 16),
         sextetChar (b % 16 * 4), '='])) = _
      simp [List.filter_cons, n1, n2, n3, urlSafeChar_pad]
    rw [hurl]
    simp only [List.map_cons, List.map_nil,
      unUrl_urlSafe_sextet _ (by omega : a / 4 < 64),
      unUrl_urlSafe_sextet _ (by omega : a % 4 * 16 + b / 16 < 64),
      unUrl_urlSafe_sextet _ (by omega : b % 16 * 4 < 64)]
    show _ = [sextetChar (a / 4), sextetChar (a % 4 * 16 + b / 16),
      sextetChar (b % 16 * 4), '=']
    simp [rePad]
  · intro a b c rest ih hb
    have ha : a < 256 := hb a (by simp)
    have hbb : b < 256 := hb b (by simp)
    have hc : c < 256 := hb c (by simp)
    have hrest : ∀ x ∈ rest, x < 256 := fun x hx => hb x (by simp [hx])
    have n1 := urlSafe_sextet_ne_pad (a / 4) (by omega)
    have n2 := urlSafe_sextet_ne_pad (a % 4 * 16 + b / 16) (by omega)
    have n3 := urlSafe_sextet_ne_pad (b % 16 * 4 + c / 64) (by omega)
    have n4 := urlSafe_sextet_ne_pad (c % 64) (by omega)
    have hurl : base64URLEncode (a :: b :: c :: rest) =
        urlSafeChar (sextetChar (a / 4)) ::
        urlSafeChar (sextetChar (a % 4 * 16 + b / 16)) ::
        urlSafeChar (sextetChar (b % 16 * 4 + c / 64)) ::
        urlSafeChar (sextetChar (c % 64)) :: base64URLEncode rest := by
      show (List.filter _ (List.map urlSafeChar
        (sextetChar (a / 4) :: sextetChar (a % 4 * 16 + b / 16) ::
         sextetChar (b % 16 * 4 + c / 64) :: sextetChar (c % 64) ::
         base64Encode rest))) = _
      simp [base64URLEncode, List.filter_cons, n1, n2, n3, n4]
    rw [hurl]
    simp only [List.map_cons,
      unUrl_urlSafe_sextet _ (by omega : a / 4 < 64),
      unUrl_urlSafe_sextet _ (by omega : a % 4 * 16 + b / 16 < 64),
      unUrl_urlSafe_sextet _ (by omega : b % 16 * 4 + c / 64 < 64),
      unUrl_urlSafe_sextet _ (by omega : c % 64 < 64)]
    rw [List.cons_append, List.cons_append, List.cons_append, List.cons_append]
    rw [rePad_cons4]
    show sextetChar (a / 4) :: sextetChar (a % 4 * 16 + b / 16) ::
      sextetChar (b % 16 * 4 + c / 64) :: sextetChar (c % 64) ::
      ((base64URLEncode rest).map unUrlChar ++
        rePad ((base64URLEncode rest).map unUrlChar)) = _
    rw [ih hrest]
    rfl

end CryptoUtils

/-- C10: for every byte array, decoding the URL-safe base64 encoding returns
the original bytes, and the URL-safe encoding never contains the characters
`+`, `/` or `=`. -/
theorem claim_C10_base64url_roundtrip (b : List Nat) (hb : ∀ x ∈ b, x < 256) :
    CryptoUtils.base64URLDecode (CryptoUtils.base64URLEncode b) = b ∧
    ∀ c ∈ CryptoUtils.base64URLEncode b, c ≠ '+' ∧ c ≠ '/' ∧ c ≠ '=' := by
  constructor
  · show CryptoUtils.base64Decode
        ((CryptoUtils.base64URLEncode b).map CryptoUtils.unUrlChar ++
          CryptoUtils.rePad
            ((CryptoUtils.base64URLEncode b).map CryptoUtils.unUrlChar)) = b
    rw [CryptoUtils.url_restore b hb]
    exact CryptoUtils.base64Decode_base64Encode b hb
  · intro c hc
    have hmem := List.mem_filter.mp hc
    obtain ⟨d, _, rfl⟩ := List.mem_map.mp hmem.1
    have hne := CryptoUtils.urlSafeChar_ne d
    refine ⟨hne.1, hne.2, ?_⟩
    simpa using hmem.2

/-- Witness for C10 on a concrete three-byte array whose standard encoding
contains both `+` and `/`. -/
theorem claim_C10_base64url_roundtrip_witness :
    (∀ x ∈ [251, 255, 190], x < 256) ∧
    (CryptoUtils.base64URLDecode (CryptoUtils.base64URLEncode [251, 255, 190]) =
      [251, 255, 190] ∧
    ∀ c ∈ CryptoUtils.base64URLEncode [251, 255, 190],
      c ≠ '+' ∧ c ≠ '/' ∧ c ≠ '=') :=
  ⟨by decide, claim_C10_base64url_roundtrip [251, 255, 190] (by decide)⟩

end PlayKit
